import Mathlib

/-!
Shallow embedding of the MUTOVU-TSS backend (Server.js).

Tables become lists of records inside a `DB` state; every `pool.query`
is an individual, auto-committed step, so state reached before a thrown
JavaScript error persists.  The explicit transaction in `/api/register`
is the one exception and is modelled by staging writes and committing or
discarding them.  Timestamps (`NOW()`) are an explicit `now : Nat`
argument.  bcrypt and JWT are external collaborators: hashing is an
injective tagging function, and a bearer token is either a valid token
carrying a user id or an invalid one.
-/

structure User where
  user_id : Nat
  username : String
  password : String
  email : String
  first_name : String
  last_name : String
  user_type : String
deriving Repr, DecidableEq

structure ParentRec where
  parent_id : Nat
  phone_number : Option String
  address : Option String
deriving Repr, DecidableEq

structure TeacherRec where
  teacher_id : Nat
  subject_specialization : Option String
  hire_date : Nat
deriving Repr, DecidableEq

structure RegistrationRequest where
  request_id : Nat
  student_name : String
  parent_name : String
  parent_email : String
  student_dob : Option String
  grade_level : Option String
  class_id : String
  status : String
  requested_at : Nat
  processed_at : Option Nat
deriving Repr, DecidableEq

structure Student where
  student_id : Nat
  student_name : String
  parent_id : Option Nat
  parent_name : String
  parent_email : String
  student_dob : Option String
  grade_level : Option String
  class_id : Option String
deriving Repr, DecidableEq

structure Notification where
  notification_id : Nat
  user_id : Nat
  title : String
  message : String
  notification_type : String
deriving Repr, DecidableEq

/-- The persistent state: one list per table plus the auto-increment
counters of the tables the workflow inserts into. -/
structure DB where
  users : List User
  parents : List ParentRec
  teachers : List TeacherRec
  registration_requests : List RegistrationRequest
  students : List Student
  notifications : List Notification
  nextUserId : Nat
  nextRequestId : Nat
  nextStudentId : Nat
  nextNotificationId : Nat
deriving Repr, DecidableEq

/-- The JSON body of a response, restricted to the shapes the embedded
endpoints produce. -/
inductive Body where
  | message (s : String)
  | requestList (rs : List RegistrationRequest)
deriving Repr, DecidableEq

structure Response where
  status : Nat
  body : Body
deriving Repr, DecidableEq

/-- JavaScript truthiness for an optional string field of a request body:
`undefined`/`null`/`""` are falsy. -/
def truthy : Option String → Bool
  | none => false
  | some s => !s.isEmpty

/-- `SELECT * FROM registration_requests WHERE request_id = ?`, first row. -/
def findRequest (db : DB) (id : Nat) : Option RegistrationRequest :=
  db.registration_requests.find? (fun r => r.request_id == id)

/-- `SELECT user_id FROM users WHERE email = ? AND user_type = 'parent'`,
first row. -/
def findParentUser (db : DB) (email : String) : Option User :=
  db.users.find? (fun u => u.email == email && u.user_type == "parent")

def setStatus (s : String) (now : Nat) (r : RegistrationRequest) : RegistrationRequest :=
  { r with status := s, processed_at := some now }

/-- `UPDATE registration_requests SET status = ?, processed_at = NOW()
WHERE request_id = ?`. -/
def updateStatus (l : List RegistrationRequest) (id : Nat) (s : String) (now : Nat) :
    List RegistrationRequest :=
  l.map (fun r => if r.request_id == id then setStatus s now r else r)

structure SubmitBody where
  student_name : Option String
  parent_name : Option String
  parent_email : Option String
  student_dob : Option String
  grade_level : Option String
  class_id : Option String
deriving Repr, DecidableEq

/-- `POST /api/registration-request` (Server.js 263-279).  The table
schema is not part of src/; the column defaults the INSERT relies on are
modelled from the spec: status defaults to `pending` and `requested_at`
to the insertion time. -/
def submitHandler (db : DB) (b : SubmitBody) (now : Nat) : DB × Response :=
  if truthy b.student_name && truthy b.parent_name && truthy b.parent_email &&
      truthy b.class_id then
    let r : RegistrationRequest :=
      { request_id := db.nextRequestId
        student_name := b.student_name.getD ""
        parent_name := b.parent_name.getD ""
        parent_email := b.parent_email.getD ""
        student_dob := b.student_dob
        grade_level := b.grade_level
        class_id := b.class_id.getD ""
        status := "pending"
        requested_at := now
        processed_at := none }
    ({ db with registration_requests := db.registration_requests ++ [r],
               nextRequestId := db.nextRequestId + 1 },
     ⟨201, .message "Registration request submitted"⟩)
  else
    (db, ⟨400, .message "All required fields must be provided"⟩)

/-- The ordering of `ORDER BY requested_at DESC`. -/
def reqDesc (a b : RegistrationRequest) : Prop := b.requested_at ≤ a.requested_at

instance : DecidableRel reqDesc := fun a b => Nat.decLe b.requested_at a.requested_at

instance : IsTotal RegistrationRequest reqDesc :=
  ⟨fun a b => Nat.le_total b.requested_at a.requested_at⟩

instance : IsTrans RegistrationRequest reqDesc :=
  ⟨fun _ _ _ h1 h2 => Nat.le_trans h2 h1⟩

/-- `GET /api/registration-requests` (Server.js 282-292). -/
def listHandler (db : DB) : DB × Response :=
  (db, ⟨200, .requestList (db.registration_requests.insertionSort reqDesc)⟩)

/-- `PATCH /api/registration-requests/:id/approve` (Server.js 295-349).
The status UPDATE runs unconditionally first; each query auto-commits.
When the id matches no row the re-fetch yields no row and reading
`request.parent_email` throws, caught by the outer handler as a 500. -/
def approveHandler (db : DB) (requestId : Nat) (now : Nat) : DB × Response :=
  let db1 : DB :=
    { db with registration_requests :=
        updateStatus db.registration_requests requestId "approved" now }
  match findRequest db1 requestId with
  | none => (db1, ⟨500, .message "Failed to approve request"⟩)
  | some request =>
    let parentUser := findParentUser db1 request.parent_email
    let st : Student :=
      { student_id := db1.nextStudentId
        student_name := request.student_name
        parent_id := parentUser.map User.user_id
        parent_name := request.parent_name
        parent_email := request.parent_email
        student_dob := request.student_dob
        grade_level := request.grade_level
        class_id := some request.class_id }
    let db2 : DB :=
      { db1 with students := db1.students ++ [st],
                 nextStudentId := db1.nextStudentId + 1 }
    match parentUser with
    | some p =>
      let note : Notification :=
        { notification_id := db2.nextNotificationId
          user_id := p.user_id
          title := "Registration Approved"
          message := "Your registration request for " ++ request.student_name ++
            " has been approved."
          notification_type := "request" }
      ({ db2 with notifications := db2.notifications ++ [note],
                  nextNotificationId := db2.nextNotificationId + 1 },
       ⟨200, .message "Request approved and student added."⟩)
    | none => (db2, ⟨200, .message "Request approved and student added."⟩)

/-- `PATCH /api/registration-requests/:id/reject` (Server.js 352-389).
Same shape as approve but with no student INSERT. -/
def rejectHandler (db : DB) (requestId : Nat) (now : Nat) : DB × Response :=
  let db1 : DB :=
    { db with registration_requests :=
        updateStatus db.registration_requests requestId "rejected" now }
  match findRequest db1 requestId with
  | none => (db1, ⟨500, .message "Failed to reject request"⟩)
  | some request =>
    match findParentUser db1 request.parent_email with
    | some p =>
      let note : Notification :=
        { notification_id := db1.nextNotificationId
          user_id := p.user_id
          title := "Registration Rejected"
          message := "Your registration request for " ++ request.student_name ++
            " has been rejected."
          notification_type := "request" }
      ({ db1 with notifications := db1.notifications ++ [note],
                  nextNotificationId := db1.nextNotificationId + 1 },
       ⟨200, .message "Request rejected and parent notified."⟩)
    | none => (db1, ⟨200, .message "Request rejected and parent notified."⟩)

/-- A bearer token as seen through `jwt.verify`: either it verifies and
carries a user id, or verification throws. -/
inductive Token where
  | valid (userId : Nat)
  | invalid
deriving Repr, DecidableEq

def verifyToken : Token → Option Nat
  | .valid uid => some uid
  | .invalid => none

/-- The `authenticate(user_types)` middleware (Server.js 31-52). -/
def authenticate (user_types : List String) (handler : User → DB → DB × Response)
    (auth : Option Token) (db : DB) : DB × Response :=
  match auth with
  | none => (db, ⟨401, .message "Authentication required"⟩)
  | some tok =>
    match verifyToken tok with
    | none => (db, ⟨401, .message "Invalid token"⟩)
    | some uid =>
      match db.users.find? (fun u => u.user_id == uid) with
      | none => (db, ⟨401, .message "User not found"⟩)
      | some user =>
        if user_types.length != 0 && !(user_types.contains user.user_type) then
          (db, ⟨403, .message "Insufficient permissions"⟩)
        else
          handler user db

/-- The registration routes are registered without the authenticate
middleware, so the route is the bare handler; the incoming credential is
never read. -/
def submitRoute (auth : Option Token) (db : DB) (b : SubmitBody) (now : Nat) :
    DB × Response :=
  submitHandler db b now

def listRoute (auth : Option Token) (db : DB) : DB × Response :=
  listHandler db

def approveRoute (auth : Option Token) (db : DB) (id now : Nat) : DB × Response :=
  approveHandler db id now

def rejectRoute (auth : Option Token) (db : DB) (id now : Nat) : DB × Response :=
  rejectHandler db id now

structure RegisterBody where
  username : Option String
  password : Option String
  confirmPassword : Option String
  email : Option String
  firstName : Option String
  lastName : Option String
  user_type : Option String
  phone_number : Option String
  address : Option String
  subject_specialization : Option String
deriving Repr, DecidableEq

def validUserTypes : List String := ["student", "parent", "teacher", "admin"]

/-- Whether the two staged INSERTs inside the `/api/register` transaction
succeed at the storage layer (a failed one throws, triggering rollback). -/
structure TxOracle where
  userInsertOk : Bool
  detailInsertOk : Bool
deriving Repr, DecidableEq

/-- bcrypt.hash, an external collaborator. -/
def hashPassword (p : String) : String := "hashed:" ++ p

/-- JavaScript `.trim().toLowerCase()` over the character list, as the
source applies it to user_type (ASCII lowering; trim strips blanks). -/
def jsTrimLower (s : String) : String :=
  let ws : List Char := [' ', '\t', '\n', '\r']
  let l := s.data.dropWhile (fun c => ws.contains c)
  let l2 := (l.reverse.dropWhile (fun c => ws.contains c)).reverse
  String.mk (l2.map (fun c =>
    if 'A' ≤ c && c ≤ 'Z' then Char.ofNat (c.toNat + 32) else c))

/-- `POST /api/register` (Server.js 94-182).  Validations run against the
pool; the user INSERT and the role-specific INSERT run inside one
transaction: writes are staged and only a commit publishes them, while a
throw rolls back and the outer catch answers 500. -/
def registerHandler (db : DB) (b : RegisterBody) (ox : TxOracle) (now : Nat) :
    DB × Response :=
  let normalizedUserType := jsTrimLower (b.user_type.getD "")
  if !(validUserTypes.contains normalizedUserType) then
    (db, ⟨400, .message "Invalid user type"⟩)
  else if !(truthy b.username && truthy b.password && truthy b.email &&
      truthy b.firstName && truthy b.lastName && truthy b.user_type) then
    (db, ⟨400, .message "All required fields must be provided"⟩)
  else if b.password != b.confirmPassword then
    (db, ⟨400, .message "Passwords do not match"⟩)
  else if (db.users.find? (fun u =>
      u.username == b.username.getD "" || u.email == b.email.getD "")).isSome then
    (db, ⟨400, .message "Username or email already exists"⟩)
  else if !ox.userInsertOk then
    (db, ⟨500, .message "Registration failed"⟩)
  else
    let userId := db.nextUserId
    let staged : DB :=
      { db with
        users := db.users ++
          [{ user_id := userId
             username := b.username.getD ""
             password := hashPassword (b.password.getD "")
             email := b.email.getD ""
             first_name := b.firstName.getD ""
             last_name := b.lastName.getD ""
             user_type := normalizedUserType }]
        nextUserId := db.nextUserId + 1 }
    if normalizedUserType == "parent" then
      if !ox.detailInsertOk then (db, ⟨500, .message "Registration failed"⟩)
      else
        ({ staged with parents := staged.parents ++
            [{ parent_id := userId, phone_number := b.phone_number,
               address := b.address }] },
         ⟨201, .message "User registered successfully"⟩)
    else if normalizedUserType == "teacher" then
      if !ox.detailInsertOk then (db, ⟨500, .message "Registration failed"⟩)
      else
        ({ staged with teachers := staged.teachers ++
            [{ teacher_id := userId, subject_specialization := b.subject_specialization,
               hire_date := now }] },
         ⟨201, .message "User registered successfully"⟩)
    else
      (staged, ⟨201, .message "User registered successfully"⟩)

theorem find_updateStatus_some (l : List RegistrationRequest) (id : Nat) (s : String)
    (now : Nat) (r : RegistrationRequest) :
    l.find? (fun x => x.request_id == id) = some r →
    (updateStatus l id s now).find? (fun x => x.request_id == id) =
      some (setStatus s now r) := by
  induction l with
  | nil => intro h; simp at h
  | cons a t ih =>
    intro h
    simp only [List.find?_cons] at h
    cases ha : (a.request_id == id) with
    | true =>
      rw [ha] at h
      have h2 : some a = some r := h
      injection h2 with h2
      subst h2
      have ha2 : ((setStatus s now a).request_id == id) = true := by
        simpa [setStatus] using ha
      simp only [updateStatus, List.map_cons, if_pos ha, List.find?_cons, ha2]
    | false =>
      rw [ha] at h
      have h2 : List.find? (fun x => x.request_id == id) t = some r := h
      have ha' : ¬ ((a.request_id == id) = true) := by simp [ha]
      simp only [updateStatus, List.map_cons, if_neg ha']
      simp only [List.find?_cons, ha]
      exact ih h2

theorem updateStatus_of_find?_none (l : List RegistrationRequest) (id : Nat) (s : String)
    (now : Nat) :
    l.find? (fun x => x.request_id == id) = none → updateStatus l id s now = l := by
  induction l with
  | nil => intro _; rfl
  | cons a t ih =>
    intro h
    simp only [List.find?_cons] at h
    cases ha : (a.request_id == id) with
    | true =>
      rw [ha] at h
      exact absurd (show some a = none from h) (by simp)
    | false =>
      rw [ha] at h
      have h2 : List.find? (fun x => x.request_id == id) t = none := h
      have ha' : ¬ ((a.request_id == id) = true) := by simp [ha]
      simp only [updateStatus, List.map_cons, if_neg ha']
      exact congrArg (fun x => a :: x) (ih h2)

/-- A parent-role user fixture. -/
def userP : User :=
  { user_id := 7, username := "pa", password := "x", email := "p@x",
    first_name := "P", last_name := "Q", user_type := "parent" }

/-- A pending request whose parent email matches `userP`. -/
def reqPending : RegistrationRequest :=
  { request_id := 1, student_name := "Sam", parent_name := "P Q",
    parent_email := "p@x", student_dob := none, grade_level := some "S1",
    class_id := "c1", status := "pending", requested_at := 10, processed_at := none }

/-- A small concrete store holding `userP` and `reqPending`. -/
def db0 : DB :=
  { users := [userP], parents := [], teachers := [],
    registration_requests := [reqPending], students := [], notifications := [],
    nextUserId := 8, nextRequestId := 2, nextStudentId := 1, nextNotificationId := 1 }

/-- C1: approving an existing request inserts exactly one Student whose
parent link is the matching parent-role user's id when one exists and
null otherwise, and creates exactly one Notification addressed to that
user iff such a user exists (none otherwise). -/
theorem approve_creates_student_and_notification
    (db : DB) (id now : Nat) (r : RegistrationRequest)
    (h : findRequest db id = some r) :
    ∃ s : Student,
      (approveHandler db id now).1.students = db.students ++ [s] ∧
      s.parent_id = (findParentUser db r.parent_email).map User.user_id ∧
      s.student_name = r.student_name ∧
      s.parent_email = r.parent_email ∧
      ((∃ p, findParentUser db r.parent_email = some p ∧
          ∃ n : Notification,
            (approveHandler db id now).1.notifications = db.notifications ++ [n] ∧
            n.user_id = p.user_id) ∨
        (findParentUser db r.parent_email = none ∧
          (approveHandler db id now).1.notifications = db.notifications)) := by
  have hup := find_updateStatus_some db.registration_requests id "approved" now r h
  simp only [approveHandler, findRequest, findParentUser, setStatus] at hup ⊢
  rw [hup]
  cases hp : db.users.find? (fun u => u.email == r.parent_email && u.user_type == "parent") with
  | some p =>
    simp only [hp]
    refine ⟨_, rfl, ?_, ?_, ?_, ?_⟩
    · rfl
    · rfl
    · rfl
    · left
      refine ⟨p, rfl, ?_⟩
      refine ⟨_, rfl, ?_⟩
      rfl
  | none =>
    simp only [hp]
    refine ⟨_, rfl, ?_, ?_, ?_, ?_⟩
    · rfl
    · rfl
    · rfl
    · right
      exact ⟨trivial, trivial⟩

/-- Witness for C1: approving request 1 of `db0` (parent user present). -/
theorem approve_creates_student_and_notification_witness :
    ∃ s : Student,
      (approveHandler db0 1 20).1.students = db0.students ++ [s] ∧
      s.parent_id = (findParentUser db0 reqPending.parent_email).map User.user_id ∧
      s.student_name = reqPending.student_name ∧
      s.parent_email = reqPending.parent_email ∧
      ((∃ p, findParentUser db0 reqPending.parent_email = some p ∧
          ∃ n : Notification,
            (approveHandler db0 1 20).1.notifications = db0.notifications ++ [n] ∧
            n.user_id = p.user_id) ∨
        (findParentUser db0 reqPending.parent_email = none ∧
          (approveHandler db0 1 20).1.notifications = db0.notifications)) :=
  approve_creates_student_and_notification db0 1 20 reqPending (by decide)

/-- C2 is false on the code: the status UPDATE in approve is not guarded
by the current status, so a request already in the terminal status
`rejected` is moved again, to `approved`, by a later approve call. -/
theorem reject_then_approve_double_transition :
    (findRequest (rejectHandler db0 1 20).1 1).map RegistrationRequest.status =
      some "rejected" ∧
    (findRequest (approveHandler (rejectHandler db0 1 20).1 1 30).1 1).map
      RegistrationRequest.status = some "approved" := by decide

/-- C2 amended: approve and reject overwrite status and processed_at
unconditionally on the matched request, whatever its current status, so a
request can transition more than once. -/
theorem status_transition_unconditional (db : DB) (id now : Nat)
    (r : RegistrationRequest) (h : findRequest db id = some r) :
    findRequest (approveHandler db id now).1 id = some (setStatus "approved" now r) ∧
    findRequest (rejectHandler db id now).1 id = some (setStatus "rejected" now r) := by
  have hupA := find_updateStatus_some db.registration_requests id "approved" now r h
  have hupR := find_updateStatus_some db.registration_requests id "rejected" now r h
  constructor
  · simp only [approveHandler, findRequest, findParentUser, setStatus] at hupA ⊢
    rw [hupA]
    cases hp : db.users.find? (fun u => u.email == r.parent_email && u.user_type == "parent") with
    | some p => simp only [hp]; exact hupA
    | none => simp only [hp]; exact hupA
  · simp only [rejectHandler, findRequest, findParentUser, setStatus] at hupR ⊢
    rw [hupR]
    cases hp : db.users.find? (fun u => u.email == r.parent_email && u.user_type == "parent") with
    | some p => simp only [hp]; exact hupR
    | none => simp only [hp]; exact hupR

/-- The same request as `reqPending` but already processed and rejected. -/
def reqRejected : RegistrationRequest :=
  { reqPending with status := "rejected", processed_at := some 15 }

/-- A store whose only request is already rejected. -/
def dbRej : DB := { db0 with registration_requests := [reqRejected] }

/-- Witness for amended C2, at a request that is already rejected. -/
theorem status_transition_unconditional_witness :
    findRequest (approveHandler dbRej 1 30).1 1 = some (setStatus "approved" 30 reqRejected) ∧
    findRequest (rejectHandler dbRej 1 30).1 1 = some (setStatus "rejected" 30 reqRejected) :=
  status_transition_unconditional dbRej 1 30 reqRejected (by decide)

/-- C3: approving an id that matches no request yields an error response
(surfaced as the generic 500 failure) and leaves the store unchanged; in
particular no Student and no Notification is created. -/
theorem approve_missing_request (db : DB) (id now : Nat)
    (h : findRequest db id = none) :
    approveHandler db id now = (db, ⟨500, .message "Failed to approve request"⟩) := by
  have hid : updateStatus db.registration_requests id "approved" now =
      db.registration_requests :=
    updateStatus_of_find?_none db.registration_requests id "approved" now h
  simp only [approveHandler, findRequest] at h ⊢
  rw [hid, h]

/-- Witness for C3: `db0` holds no request with id 99. -/
theorem approve_missing_request_witness :
    approveHandler db0 99 5 = (db0, ⟨500, .message "Failed to approve request"⟩) :=
  approve_missing_request db0 99 5 (by decide)

/-- C4: rejecting an existing request never touches the students table;
it only stamps status `rejected` and processed_at, and creates a
rejection Notification iff a parent-role user matches the request's
parent email. -/
theorem reject_creates_no_student (db : DB) (id now : Nat) (r : RegistrationRequest)
    (h : findRequest db id = some r) :
    (rejectHandler db id now).1.students = db.students ∧
    findRequest (rejectHandler db id now).1 id = some (setStatus "rejected" now r) ∧
    ((∃ p, findParentUser db r.parent_email = some p ∧
        ∃ n : Notification,
          (rejectHandler db id now).1.notifications = db.notifications ++ [n] ∧
          n.user_id = p.user_id ∧ n.title = "Registration Rejected") ∨
      (findParentUser db r.parent_email = none ∧
        (rejectHandler db id now).1.notifications = db.notifications)) := by
  have hup := find_updateStatus_some db.registration_requests id "rejected" now r h
  simp only [rejectHandler, findRequest, findParentUser, setStatus] at hup ⊢
  rw [hup]
  cases hp : db.users.find? (fun u => u.email == r.parent_email && u.user_type == "parent") with
  | some p =>
    simp only [hp]
    refine ⟨?_, ?_, ?_⟩
    · trivial
    · exact hup
    · left
      refine ⟨p, ?_, ?_⟩
      · trivial
      · exact ⟨_, rfl, rfl, rfl⟩
  | none =>
    simp only [hp]
    refine ⟨?_, ?_, ?_⟩
    · trivial
    · exact hup
    · right
      exact ⟨trivial, trivial⟩

/-- Witness for C4 at `db0` (parent user present). -/
theorem reject_creates_no_student_witness :
    (rejectHandler db0 1 20).1.students = db0.students ∧
    findRequest (rejectHandler db0 1 20).1 1 = some (setStatus "rejected" 20 reqPending) ∧
    ((∃ p, findParentUser db0 reqPending.parent_email = some p ∧
        ∃ n : Notification,
          (rejectHandler db0 1 20).1.notifications = db0.notifications ++ [n] ∧
          n.user_id = p.user_id ∧ n.title = "Registration Rejected") ∨
      (findParentUser db0 reqPending.parent_email = none ∧
        (rejectHandler db0 1 20).1.notifications = db0.notifications)) :=
  reject_creates_no_student db0 1 20 reqPending (by decide)

/-- C5: a submission missing any of student name, parent name, parent
email or class id is answered 400 and the store is unchanged. -/
theorem submit_missing_required_field (db : DB) (b : SubmitBody) (now : Nat)
    (h : b.student_name = none ∨ b.parent_name = none ∨ b.parent_email = none ∨
      b.class_id = none) :
    submitHandler db b now =
      (db, ⟨400, .message "All required fields must be provided"⟩) := by
  have hc : (truthy b.student_name && truthy b.parent_name && truthy b.parent_email &&
      truthy b.class_id) = false := by
    rcases h with h | h | h | h <;> simp [h, truthy]
  simp [submitHandler, hc]

/-- A submission body with the parent email absent. -/
def subBodyMissing : SubmitBody :=
  { student_name := some "Sam", parent_name := some "P Q", parent_email := none,
    student_dob := none, grade_level := none, class_id := some "c1" }

/-- Witness for C5. -/
theorem submit_missing_required_field_witness :
    submitHandler db0 subBodyMissing 11 =
      (db0, ⟨400, .message "All required fields must be provided"⟩) :=
  submit_missing_required_field db0 subBodyMissing 11 (Or.inr (Or.inr (Or.inl rfl)))

/-- A fully-populated submission body. -/
def subBodyFull : SubmitBody :=
  { student_name := some "Sam", parent_name := some "P Q", parent_email := some "p@x",
    student_dob := none, grade_level := none, class_id := some "c1" }

/-- C6 is false on the code: the 201 response is a fixed confirmation
message.  Two stores that will assign different identifiers to the new
request receive identical responses, so the response cannot carry the
newly created identifier. -/
theorem submit_does_not_return_identifier :
    (submitHandler db0 subBodyFull 11).2 =
      ⟨201, .message "Registration request submitted"⟩ ∧
    (submitHandler { db0 with nextRequestId := 42 } subBodyFull 11).2 =
      (submitHandler db0 subBodyFull 11).2 ∧
    ({ db0 with nextRequestId := 42 } : DB).nextRequestId ≠ db0.nextRequestId := by
  decide

/-- C6 amended: a fully-populated submission appends exactly one request,
pending and carrying the fresh identifier, and is answered 201 with a
fixed confirmation message; the identifier is not in the response. -/
theorem submit_persists_pending (db : DB) (b : SubmitBody) (now : Nat)
    (h : (truthy b.student_name && truthy b.parent_name && truthy b.parent_email &&
      truthy b.class_id) = true) :
    ∃ r : RegistrationRequest,
      (submitHandler db b now).1.registration_requests =
        db.registration_requests ++ [r] ∧
      r.status = "pending" ∧
      r.request_id = db.nextRequestId ∧
      (submitHandler db b now).2 = ⟨201, .message "Registration request submitted"⟩ := by
  unfold submitHandler
  rw [h]
  exact ⟨_, rfl, rfl, rfl, rfl⟩

/-- Witness for amended C6. -/
theorem submit_persists_pending_witness :
    ∃ r : RegistrationRequest,
      (submitHandler db0 subBodyFull 11).1.registration_requests =
        db0.registration_requests ++ [r] ∧
      r.status = "pending" ∧
      r.request_id = db0.nextRequestId ∧
      (submitHandler db0 subBodyFull 11).2 =
        ⟨201, .message "Registration request submitted"⟩ :=
  submit_persists_pending db0 subBodyFull 11 (by decide)

/-- C7: the list endpoint returns the store unchanged together with all
stored requests - whatever their status - ordered by submission
timestamp, descending. -/
theorem list_returns_all_sorted_desc (db : DB) :
    ∃ rs : List RegistrationRequest,
      listHandler db = (db, ⟨200, .requestList rs⟩) ∧
      rs.Perm db.registration_requests ∧
      rs.Sorted reqDesc :=
  ⟨_, rfl, List.perm_insertionSort reqDesc db.registration_requests,
    List.sorted_insertionSort reqDesc db.registration_requests⟩

/-- C8: the submit, list, approve and reject routes carry no authenticate
wrapper, so two requests differing only in the bearer credential (absent,
invalid, or any valid token) behave identically. -/
theorem registration_routes_ignore_credential (a1 a2 : Option Token) (db : DB)
    (b : SubmitBody) (id now : Nat) :
    submitRoute a1 db b now = submitRoute a2 db b now ∧
    listRoute a1 db = listRoute a2 db ∧
    approveRoute a1 db id now = approveRoute a2 db id now ∧
    rejectRoute a1 db id now = rejectRoute a2 db id now :=
  ⟨rfl, rfl, rfl, rfl⟩

/-- The credential-resolution step of the guard as the spec words it:
the bearer credential resolves to a stored User, or fails. -/
def resolveUser (db : DB) (auth : Option Token) : Option User :=
  match auth with
  | none => none
  | some t =>
    match verifyToken t with
    | none => none
    | some uid => db.users.find? (fun u => u.user_id == uid)

/-- C9: the guard answers 401 when the credential is absent or resolves
to no stored User, 403 when a non-empty permitted-role set excludes the
resolved user's role, and otherwise runs the wrapped handler on the
resolved user; an empty permitted-role set admits every authenticated
user regardless of role. -/
theorem authenticate_guard_spec (types : List String)
    (handler : User → DB → DB × Response) (auth : Option Token) (db : DB) :
    (resolveUser db auth = none →
      (authenticate types handler auth db).2.status = 401) ∧
    (∀ u, resolveUser db auth = some u → types ≠ [] → u.user_type ∉ types →
      (authenticate types handler auth db).2.status = 403) ∧
    (∀ u, resolveUser db auth = some u → (types = [] ∨ u.user_type ∈ types) →
      authenticate types handler auth db = handler u db) := by
  cases auth with
  | none =>
    refine ⟨fun _ => rfl, ?_, ?_⟩ <;> intro u hu <;> simp [resolveUser] at hu
  | some t =>
    cases ht : verifyToken t with
    | none =>
      refine ⟨fun _ => ?_, ?_, ?_⟩
      · simp [authenticate, ht]
      · intro u hu; simp [resolveUser, ht] at hu
      · intro u hu; simp [resolveUser, ht] at hu
    | some uid =>
      cases hf : db.users.find? (fun u => u.user_id == uid) with
      | none =>
        refine ⟨fun _ => ?_, ?_, ?_⟩
        · simp [authenticate, ht, hf]
        · intro u hu; simp [resolveUser, ht, hf] at hu
        · intro u hu; simp [resolveUser, ht, hf] at hu
      | some user =>
        have hres : resolveUser db (some t) = some user := by
          simp [resolveUser, ht, hf]
        refine ⟨?_, ?_, ?_⟩
        · intro hnone
          rw [hres] at hnone
          exact absurd hnone (by simp)
        · intro u hu hne hnot
          rw [hres] at hu
          injection hu with hu
          subst hu
          simp [authenticate, ht, hf, hne, hnot]
        · intro u hu hor
          rw [hres] at hu
          injection hu with hu
          subst hu
          rcases hor with hor | hor
          · subst hor
            simp [authenticate, ht, hf]
          · simp [authenticate, ht, hf, hor]

/-- A concrete wrapped handler for the guard witness. -/
def echoHandler : User → DB → DB × Response :=
  fun u db => (db, ⟨200, .message u.username⟩)

/-- Witness for C9: the three guard outcomes at concrete inputs. -/
theorem authenticate_guard_spec_witness :
    (authenticate [] echoHandler none db0).2.status = 401 ∧
    (authenticate ["admin"] echoHandler (some (Token.valid 7)) db0).2.status = 403 ∧
    authenticate ["parent"] echoHandler (some (Token.valid 7)) db0 =
      echoHandler userP db0 :=
  ⟨(authenticate_guard_spec [] echoHandler none db0).1 rfl,
   (authenticate_guard_spec ["admin"] echoHandler (some (Token.valid 7)) db0).2.1
     userP (by decide) (by decide) (by decide),
   (authenticate_guard_spec ["parent"] echoHandler (some (Token.valid 7)) db0).2.2
     userP (by decide) (by decide)⟩

set_option maxHeartbeats 2000000 in
/-- C10: when the role-specific INSERT inside the register transaction
fails, the transaction is rolled back: the store is unchanged - in
particular no User row persists - and the caller sees an error
response. -/
theorem register_detail_failure_rolls_back (db : DB) (b : RegisterBody) (now : Nat)
    (hrole : jsTrimLower (b.user_type.getD "") = "parent" ∨
      jsTrimLower (b.user_type.getD "") = "teacher") :
    (registerHandler db b ⟨true, false⟩ now).1 = db ∧
    ((registerHandler db b ⟨true, false⟩ now).2.status = 400 ∨
      (registerHandler db b ⟨true, false⟩ now).2.status = 500) := by
  rcases hrole with hr | hr <;>
    simp only [registerHandler, hr] <;>
    split_ifs <;>
    simp_all

/-- A register body for a parent account with matching passwords and a
fresh username and email. -/
def regBodyParent : RegisterBody :=
  { username := some "pa2", password := some "pw", confirmPassword := some "pw",
    email := some "q@x", firstName := some "A", lastName := some "B",
    user_type := some "parent", phone_number := some "123", address := none,
    subject_specialization := none }

/-- Witness for C10. -/
theorem register_detail_failure_rolls_back_witness :
    (registerHandler db0 regBodyParent ⟨true, false⟩ 50).1 = db0 ∧
    ((registerHandler db0 regBodyParent ⟨true, false⟩ 50).2.status = 400 ∨
      (registerHandler db0 regBodyParent ⟨true, false⟩ 50).2.status = 500) :=
  register_detail_failure_rolls_back db0 regBodyParent 50 (Or.inl (by decide))
